import Mathlib

/-!
Verification of the multi-source reconciliation logic of TrendLedger
(`etl/sources/snapshot.py`).

The reconciler `fetch_snapshot` merges the outputs of three provider
adapters — Finnhub ("A"), yfinance ("B", `_yfinance_balance_dividend`)
and Financial Modeling Prep ("C", key-metrics and balance-sheet
mappings) — into one canonical snapshot record.

Numeric raw values are modelled as `Option ℚ` (`none` = the Python value
`None` / a missing dictionary key, `some q` = a number).  Python's
truthiness-based `or` / `and` operators are modelled explicitly, and the
two divisions performed by the reconciler run in an `Except Unit` monad
so that a `ZeroDivisionError` (or a `TypeError` from arithmetic on
`None`) is visible as `Except.error`.
-/

/-- Python truthiness of an optional number: `None`, `0` and `0.0` are
falsy, every other number is truthy. -/
def truthy : Option ℚ → Bool
  | none => false
  | some q => decide (q ≠ 0)

/-- Python `a or b` on optional numbers: returns `a` when `a` is truthy,
otherwise returns `b` (so `0 or x = x` and `None or x = x`). -/
def pyOr (a b : Option ℚ) : Option ℚ :=
  if truthy a then a else b

/-- Python division of two numbers: raises (`Except.error`) on a zero
divisor, otherwise returns the exact quotient. -/
def pydiv (a b : ℚ) : Except Unit ℚ :=
  if b = 0 then Except.error () else Except.ok (a / b)

/-- Python division applied to two optional numbers, as in the
`ev_to_ebitda` expression: a `None` operand raises a `TypeError`,
a zero divisor raises a `ZeroDivisionError`. -/
def pyDivOpt : Option ℚ → Option ℚ → Except Unit (Option ℚ)
  | some a, some b => if b = 0 then Except.error () else Except.ok (some (a / b))
  | _, _ => Except.error ()

/-- Raw Finnhub metric mapping (adapter A): exactly the keys read by
`fetch_snapshot`; `dict.get` on an absent key yields `none`.
The key written `currentEv/freeCashFlowTTM` in the source is rendered
`currentEvFreeCashFlowTTM` here. -/
structure Finnhub where
  marketCapitalization : Option ℚ
  peTTM : Option ℚ
  epsGrowthQuarterlyYoy : Option ℚ
  revenueGrowthQuarterlyYoy : Option ℚ
  forwardPE : Option ℚ
  psTTM : Option ℚ
  enterpriseValue : Option ℚ
  ebitdaTTM : Option ℚ
  pbTTM : Option ℚ
  currentEvFreeCashFlowTTM : Option ℚ
  netProfitMarginTTM : Option ℚ
  operatingMarginTTM : Option ℚ
  dividendYieldIndicatedAnnual : Option ℚ
  payoutRatioTTM : Option ℚ

/-- Raw FMP key-metrics mapping (adapter C, `_fmp_key_metrics`): exactly
the keys read by `fetch_snapshot`. -/
structure FmpKm where
  marketCapTTM : Option ℚ
  peRatioTTM : Option ℚ
  epsGrowthQuarterlyYoy : Option ℚ
  revenueGrowthQuarterlyYOY : Option ℚ
  forwardPE : Option ℚ
  priceToSalesRatioTTM : Option ℚ
  enterpriseValueOverEBITDATTM : Option ℚ
  enterpriseValueTTM : Option ℚ
  ebitdaTTM : Option ℚ
  priceToBookRatioTTM : Option ℚ
  pbRatioTTM : Option ℚ
  ptbRatioTTM : Option ℚ
  freeCashFlowYieldTTM : Option ℚ
  netProfitMarginTTM : Option ℚ
  operatingMarginTTM : Option ℚ
  dividendYieldTTM : Option ℚ
  payoutRatioTTM : Option ℚ

/-- Raw FMP balance-sheet mapping (adapter C, `_fmp_balance_sheet`). -/
structure FmpBs where
  cashAndCashEquivalents : Option ℚ
  totalDebt : Option ℚ

/-- Well-typed output of adapter B (`_yfinance_balance_dividend`) as the
reconciler reads it with bracket lookups: the five keys, each nullable.
Dates are modelled as an abstract `Nat` code. -/
structure YFin where
  cash : Option ℚ
  debt : Option ℚ
  net_cash : Option ℚ
  ex_div_date : Option Nat
  payout_date : Option Nat

/-- The canonical snapshot dictionary returned by `fetch_snapshot`. -/
structure Snapshot where
  market_cap : Option ℚ
  pe_ttm : Option ℚ
  pe_fwd : Option ℚ
  price_to_sales : Option ℚ
  ev_to_ebitda : Option ℚ
  price_to_book : Option ℚ
  fcf_yield : Option ℚ
  profit_margin : Option ℚ
  operating_margin_ttm : Option ℚ
  earnings_yoy : Option ℚ
  revenue_yoy : Option ℚ
  cash : Option ℚ
  debt : Option ℚ
  net_cash : Option ℚ
  dividend_yield : Option ℚ
  payout_ratio' : Option ℚ
  ex_div_date : Option Nat
  payout_date : Option Nat

/-- The forward-P/E block of `fetch_snapshot`:
`if pe_fwd is None and pe_ttm is not None and earnings_yoy is not None
and earnings_yoy > 0: pe_fwd = pe_ttm / (1 + earnings_yoy / 100)`.
Otherwise `pe_fwd` keeps the directly merged value. -/
def derivePeFwd (pf pt ey : Option ℚ) : Except Unit (Option ℚ) :=
  match pf, pt, ey with
  | none, some p, some e =>
      if 0 < e then do
        let v ← pydiv p (1 + e / 100)
        pure (some v)
      else pure none
  | pf, _, _ => pure pf

/-- The `ev_to_ebitda` expression of `fetch_snapshot`:
`direct or (num and den and num / den)` evaluated with Python
short-circuit semantics, where `direct` is C's
`enterpriseValueOverEBITDATTM`, `num` is `A.enterpriseValue or
C.enterpriseValueTTM` and `den` is `A.ebitdaTTM or C.ebitdaTTM`. -/
def computeEv (direct num den : Option ℚ) : Except Unit (Option ℚ) :=
  if truthy direct then pure direct
  else if truthy num = false then pure num
  else if truthy den = false then pure den
  else pyDivOpt num den

/-- The reconciler `fetch_snapshot`, as a function of the three
adapters' outputs (the Finnhub mapping, adapter B's five-field result,
and FMP's key-metrics and balance-sheet mappings).  Field order and
fallback chains follow the source line by line; the output field
`payout_ratio` is rendered `payout_ratio'` here. -/
def fetch_snapshot (f : Finnhub) (y : YFin) (km : FmpKm) (bs : FmpBs) :
    Except Unit Snapshot := do
  let market_cap := pyOr f.marketCapitalization km.marketCapTTM
  let pe_ttm := pyOr f.peTTM km.peRatioTTM
  let earnings_yoy := pyOr f.epsGrowthQuarterlyYoy km.epsGrowthQuarterlyYoy
  let revenue_yoy := pyOr f.revenueGrowthQuarterlyYoy km.revenueGrowthQuarterlyYOY
  let pe_fwd ← derivePeFwd (pyOr f.forwardPE km.forwardPE) pe_ttm earnings_yoy
  let price_to_sales := pyOr f.psTTM km.priceToSalesRatioTTM
  let ev_to_ebitda ← computeEv km.enterpriseValueOverEBITDATTM
      (pyOr f.enterpriseValue km.enterpriseValueTTM)
      (pyOr f.ebitdaTTM km.ebitdaTTM)
  let price_to_book := pyOr f.pbTTM
      (pyOr km.priceToBookRatioTTM (pyOr km.pbRatioTTM km.ptbRatioTTM))
  let fcf_yield := pyOr f.currentEvFreeCashFlowTTM km.freeCashFlowYieldTTM
  let profit_margin := pyOr f.netProfitMarginTTM km.netProfitMarginTTM
  let operating_margin_ttm := pyOr f.operatingMarginTTM km.operatingMarginTTM
  let cash := pyOr y.cash bs.cashAndCashEquivalents
  let debt := pyOr y.debt bs.totalDebt
  let net_cash :=
    match y.net_cash with
    | some v => some v
    | none =>
        match cash, debt with
        | some c, some d => some (c - d)
        | _, _ => none
  let dividend_yield := pyOr f.dividendYieldIndicatedAnnual km.dividendYieldTTM
  let pr := pyOr f.payoutRatioTTM km.payoutRatioTTM
  Except.ok
    { market_cap := market_cap
      pe_ttm := pe_ttm
      pe_fwd := pe_fwd
      price_to_sales := price_to_sales
      ev_to_ebitda := ev_to_ebitda
      price_to_book := price_to_book
      fcf_yield := fcf_yield
      profit_margin := profit_margin
      operating_margin_ttm := operating_margin_ttm
      earnings_yoy := earnings_yoy
      revenue_yoy := revenue_yoy
      cash := cash
      debt := debt
      net_cash := net_cash
      dividend_yield := dividend_yield
      payout_ratio' := pr
      ex_div_date := y.ex_div_date
      payout_date := y.payout_date }

/-- Total value of the forward-P/E block: `derivePeFwd` never raises,
and this is the value it returns. -/
def derivePeFwdT (pf pt ey : Option ℚ) : Option ℚ :=
  match pf, pt, ey with
  | none, some p, some e => if 0 < e then some (p / (1 + e / 100)) else none
  | pf, _, _ => pf

/-- Total value of the `ev_to_ebitda` expression: `computeEv` never
raises, and this is the value it returns. -/
def computeEvT (direct num den : Option ℚ) : Option ℚ :=
  if truthy direct then direct
  else if truthy num = false then num
  else if truthy den = false then den
  else
    match num, den with
    | some a, some b => some (a / b)
    | _, _ => none

lemma derivePeFwd_eq (pf pt ey : Option ℚ) :
    derivePeFwd pf pt ey = Except.ok (derivePeFwdT pf pt ey) := by
  cases pf with
  | some q => rfl
  | none =>
    cases pt with
    | none => cases ey <;> rfl
    | some p =>
      cases ey with
      | none => rfl
      | some e =>
        by_cases h : 0 < e
        · have hne : (1 : ℚ) + e / 100 ≠ 0 := by
            have : (0 : ℚ) < 1 + e / 100 := by linarith
            exact this.ne'
          simp [derivePeFwd, derivePeFwdT, pydiv, h, hne, pure, Except.pure,
            bind, Except.bind]
        · simp [derivePeFwd, derivePeFwdT, h, pure, Except.pure]

lemma computeEv_eq (direct num den : Option ℚ) :
    computeEv direct num den = Except.ok (computeEvT direct num den) := by
  unfold computeEv computeEvT
  by_cases hd : truthy direct
  · simp [hd, pure, Except.pure]
  · by_cases hn : truthy num
    · by_cases hm : truthy den
      · cases num with
        | none => simp [truthy] at hn
        | some a =>
          cases den with
          | none => simp [truthy] at hm
          | some b =>
            have hb : b ≠ 0 := by simpa [truthy] using hm
            simp [hd, hn, hm, pyDivOpt, hb]
      · simp [hd, hn, hm, pure, Except.pure]
    · simp [hd, hn, pure, Except.pure]

/-- Explicit value of the reconciler: given any well-typed adapter
outputs, `fetch_snapshot` succeeds and returns this record. -/
lemma fetch_snapshot_eq (f : Finnhub) (y : YFin) (km : FmpKm) (bs : FmpBs) :
    fetch_snapshot f y km bs = Except.ok
      { market_cap := pyOr f.marketCapitalization km.marketCapTTM
        pe_ttm := pyOr f.peTTM km.peRatioTTM
        pe_fwd := derivePeFwdT (pyOr f.forwardPE km.forwardPE)
          (pyOr f.peTTM km.peRatioTTM)
          (pyOr f.epsGrowthQuarterlyYoy km.epsGrowthQuarterlyYoy)
        price_to_sales := pyOr f.psTTM km.priceToSalesRatioTTM
        ev_to_ebitda := computeEvT km.enterpriseValueOverEBITDATTM
          (pyOr f.enterpriseValue km.enterpriseValueTTM)
          (pyOr f.ebitdaTTM km.ebitdaTTM)
        price_to_book := pyOr f.pbTTM
          (pyOr km.priceToBookRatioTTM (pyOr km.pbRatioTTM km.ptbRatioTTM))
        fcf_yield := pyOr f.currentEvFreeCashFlowTTM km.freeCashFlowYieldTTM
        profit_margin := pyOr f.netProfitMarginTTM km.netProfitMarginTTM
        operating_margin_ttm := pyOr f.operatingMarginTTM km.operatingMarginTTM
        earnings_yoy := pyOr f.epsGrowthQuarterlyYoy km.epsGrowthQuarterlyYoy
        revenue_yoy := pyOr f.revenueGrowthQuarterlyYoy km.revenueGrowthQuarterlyYOY
        cash := pyOr y.cash bs.cashAndCashEquivalents
        debt := pyOr y.debt bs.totalDebt
        net_cash :=
          match y.net_cash with
          | some v => some v
          | none =>
              match pyOr y.cash bs.cashAndCashEquivalents,
                  pyOr y.debt bs.totalDebt with
              | some c, some d => some (c - d)
              | _, _ => none
        dividend_yield := pyOr f.dividendYieldIndicatedAnnual km.dividendYieldTTM
        payout_ratio' := pyOr f.payoutRatioTTM km.payoutRatioTTM
        ex_div_date := y.ex_div_date
        payout_date := y.payout_date } := by
  unfold fetch_snapshot
  simp only [derivePeFwd_eq, computeEv_eq, bind, Except.bind]

/-- Value stored in adapter B's result dictionary: `None`, an integer
from `int(bs.loc[lbl].iloc[0])`, or a date from `ex.date()`. -/
inductive BVal where
  | null : BVal
  | int : Int → BVal
  | date : Nat → BVal
deriving DecidableEq

/-- Last entry of the dividend series index, as adapter B inspects it:
it may lack a `date` attribute (the `hasattr` guard fails), carry a
date, or raise when `date()` is called. -/
inductive DivLast where
  | noDateAttr : DivLast
  | dateVal : Nat → DivLast
  | dateRaises : DivLast

/-- Environment of one `_yfinance_balance_dividend` call.  `bsTable` is
`none` when constructing the ticker or reading `balance_sheet` raises;
otherwise it is the balance-sheet table as a row-label index (a row's
`none` value means `int(...)` raises on that row).  `divsLast` is `none`
when reading `dividends` raises, `some none` when the series is empty,
and `some (some e)` gives its last index entry. -/
structure BInput where
  bsTable : Option (List (String × Option Int))
  divsLast : Option (Option DivLast)

/-- Python dictionary assignment `d[k] = v` on an association list:
replaces the first binding of `k` in place, or appends a new one. -/
def dictSet (d : List (String × BVal)) (k : String) (v : BVal) :
    List (String × BVal) :=
  match d with
  | [] => [(k, v)]
  | (k2, v2) :: rest =>
      if k2 = k then (k, v) :: rest else (k2, v2) :: dictSet rest k v

/-- The dictionary `res` as initialised at the top of
`_yfinance_balance_dividend`. -/
def resInit : List (String × BVal) :=
  [("cash", BVal.null), ("debt", BVal.null), ("net_cash", BVal.null),
   ("ex_div_date", BVal.null), ("payout_date", BVal.null)]

/-- Row-label priority list for cash. -/
def cashLabels : List String := ["Cash And Cash Equivalents", "Total Cash", "Cash"]

/-- Row-label priority list for debt. -/
def debtLabels : List String := ["Long Term Debt", "Total Debt"]

/-- The label loop `for lbl in (...): if lbl in bs.index: ... break`:
returns `none` when no label matches, and otherwise the first matching
row's value (whose own `none` means `int(...)` raises there). -/
def findLabel (labels : List String) (bs : List (String × Option Int)) :
    Option (Option Int) :=
  match labels with
  | [] => none
  | l :: ls =>
      match bs.lookup l with
      | some v => some v
      | none => findLabel ls bs

/-- The `if not bs.empty:` block of `_yfinance_balance_dividend`: cash
and debt extraction and the local `net_cash = cash - debt`.  Returns the
dictionary so far and whether an exception was raised inside the block
(`int(...)` failing), in which case the rest of the `try` body is
skipped. -/
def yfbdBalance (bs : List (String × Option Int)) :
    List (String × BVal) × Bool :=
  match findLabel cashLabels bs with
  | some none => (resInit, true)
  | cashRes =>
    let res1 :=
      match cashRes with
      | some (some v) => dictSet resInit "cash" (BVal.int v)
      | _ => resInit
    match findLabel debtLabels bs with
    | some none => (res1, true)
    | debtRes =>
      let res2 :=
        match debtRes with
        | some (some v) => dictSet res1 "debt" (BVal.int v)
        | _ => res1
      let res3 :=
        match res2.lookup "cash", res2.lookup "debt" with
        | some (BVal.int c), some (BVal.int d) =>
            dictSet res2 "net_cash" (BVal.int (c - d))
        | _, _ => res2
      (res3, false)

/-- Adapter B, `_yfinance_balance_dividend`: builds the five-key result
dictionary; any exception inside the `try` block is caught and the
dictionary accumulated so far is returned. -/
def yfinance_balance_dividend (inp : BInput) : List (String × BVal) :=
  match inp.bsTable with
  | none => resInit
  | some bs =>
    match (if bs.isEmpty then (resInit, false) else yfbdBalance bs) with
    | (res, true) => res
    | (res, false) =>
      match inp.divsLast with
      | none => res
      | some none => res
      | some (some DivLast.dateRaises) => res
      | some (some DivLast.noDateAttr) =>
          let r1 := dictSet res "ex_div_date" BVal.null
          dictSet r1 "payout_date" ((r1.lookup "ex_div_date").getD BVal.null)
      | some (some (DivLast.dateVal d)) =>
          let r1 := dictSet res "ex_div_date" (BVal.date d)
          dictSet r1 "payout_date" ((r1.lookup "ex_div_date").getD BVal.null)

/-- Reading a B-dictionary value as a nullable number, as the reconciler
uses `yfin["cash"]`, `yfin["debt"]`, `yfin["net_cash"]`. -/
def toNum : BVal → Option (Option ℚ)
  | BVal.null => some none
  | BVal.int n => some (some (n : ℚ))
  | BVal.date _ => none

/-- Reading a B-dictionary value as a nullable date, as the reconciler
uses `yfin["ex_div_date"]` and `yfin["payout_date"]`. -/
def toDate : BVal → Option (Option Nat)
  | BVal.null => some none
  | BVal.date d => some (some d)
  | BVal.int _ => none

/-- Well-typed view of adapter B's dictionary: succeeds exactly when the
five bracket lookups performed by `fetch_snapshot` find their keys with
values of the expected kinds. -/
def YFin.ofDict? (d : List (String × BVal)) : Option YFin :=
  match (d.lookup "cash").bind toNum, (d.lookup "debt").bind toNum,
      (d.lookup "net_cash").bind toNum,
      (d.lookup "ex_div_date").bind toDate,
      (d.lookup "payout_date").bind toDate with
  | some c, some de, some nc, some ex, some po =>
      some { cash := c, debt := de, net_cash := nc,
             ex_div_date := ex, payout_date := po }
  | _, _, _, _, _ => none

lemma dictSet_keys_of_mem {d : List (String × BVal)} {k : String}
    (v : BVal) (h : k ∈ d.map Prod.fst) :
    (dictSet d k v).map Prod.fst = d.map Prod.fst := by
  induction d with
  | nil => simp at h
  | cons p rest ih =>
    obtain ⟨k2, v2⟩ := p
    by_cases hk : k2 = k
    · simp [dictSet, hk]
    · rw [List.map_cons] at h
      have h' : k ∈ rest.map Prod.fst := by
        rcases List.mem_cons.mp h with h0 | h0
        · exact absurd h0.symm hk
        · exact h0
      simp [dictSet, hk, ih h']

lemma dictSet_lookup_self (d : List (String × BVal)) (k : String) (v : BVal) :
    (dictSet d k v).lookup k = some v := by
  induction d with
  | nil => simp [dictSet]
  | cons p rest ih =>
    obtain ⟨k2, v2⟩ := p
    by_cases hk : k2 = k
    · simp [dictSet, hk]
    · have hb : (k == k2) = false :=
        beq_eq_false_iff_ne.mpr (fun h => hk h.symm)
      simp [dictSet, hk, List.lookup, hb, ih]

lemma dictSet_lookup_ne (d : List (String × BVal)) {k k' : String}
    (v : BVal) (h : k' ≠ k) :
    (dictSet d k v).lookup k' = d.lookup k' := by
  have hb : (k' == k) = false := beq_eq_false_iff_ne.mpr h
  induction d with
  | nil => simp [dictSet, List.lookup, hb]
  | cons p rest ih =>
    obtain ⟨k2, v2⟩ := p
    by_cases hk : k2 = k
    · subst hk
      simp [dictSet, List.lookup, hb]
    · by_cases hk' : k' = k2
      · have hb2 : (k' == k2) = true := beq_iff_eq.mpr hk'
        simp [dictSet, hk, List.lookup, hb2]
      · have hb2 : (k' == k2) = false := beq_eq_false_iff_ne.mpr hk'
        simp [dictSet, hk, List.lookup, hb2, ih]

/-- A nullable integer as a B-dictionary value. -/
def numBVal : Option Int → BVal
  | none => BVal.null
  | some v => BVal.int v

/-- A nullable date as a B-dictionary value. -/
def dateBVal : Option Nat → BVal
  | none => BVal.null
  | some d => BVal.date d

/-- Normal form of adapter B's result dictionary: the five keys in
insertion order, with nullable cash, debt and net cash, and one shared
nullable date in both date slots. -/
def bShape (c d n : Option Int) (e : Option Nat) : List (String × BVal) :=
  [("cash", numBVal c), ("debt", numBVal d), ("net_cash", numBVal n),
   ("ex_div_date", dateBVal e), ("payout_date", dateBVal e)]

lemma yfbdBalance_fields (bs : List (String × Option Int)) :
    ∃ c d n : Option Int, (yfbdBalance bs).1 = bShape c d n none := by
  unfold yfbdBalance
  cases hc : findLabel cashLabels bs with
  | none =>
    cases hd : findLabel debtLabels bs with
    | none => exact ⟨none, none, none, rfl⟩
    | some dv =>
      cases dv with
      | none => exact ⟨none, none, none, rfl⟩
      | some w => exact ⟨none, some w, none, rfl⟩
  | some cv =>
    cases cv with
    | none => exact ⟨none, none, none, rfl⟩
    | some v =>
      cases hd : findLabel debtLabels bs with
      | none => exact ⟨some v, none, none, rfl⟩
      | some dv =>
        cases dv with
        | none => exact ⟨some v, none, none, rfl⟩
        | some w => exact ⟨some v, some w, some (v - w), rfl⟩

lemma yfbd_shape (inp : BInput) :
    ∃ (c d n : Option Int) (e : Option Nat),
      yfinance_balance_dividend inp = bShape c d n e := by
  unfold yfinance_balance_dividend
  split
  · exact ⟨none, none, none, none, rfl⟩
  · rename_i bs hbt
    have hres : ∀ res flag,
        (if bs.isEmpty then (resInit, false) else yfbdBalance bs) = (res, flag) →
        ∃ c d n : Option Int, res = bShape c d n none := by
      intro res flag h
      by_cases hbs : bs.isEmpty
      · rw [if_pos hbs] at h
        cases h
        exact ⟨none, none, none, rfl⟩
      · rw [if_neg hbs] at h
        obtain ⟨c, d, n, hcd⟩ := yfbdBalance_fields bs
        rw [h] at hcd
        exact ⟨c, d, n, hcd⟩
    split
    · rename_i res heq
      obtain ⟨c, d, n, hr⟩ := hres res true heq
      exact ⟨c, d, n, none, by rw [hr]⟩
    · rename_i res heq
      obtain ⟨c, d, n, hr⟩ := hres res false heq
      subst hr
      split
      · exact ⟨c, d, n, none, rfl⟩
      · exact ⟨c, d, n, none, rfl⟩
      · exact ⟨c, d, n, none, rfl⟩
      · exact ⟨c, d, n, none, rfl⟩
      · rename_i dd hdd
        exact ⟨c, d, n, some dd, rfl⟩

lemma ofDict_bShape (c d n : Option Int) (e : Option Nat) :
    YFin.ofDict? (bShape c d n e) =
      some { cash := c.map fun v => (v : ℚ)
             debt := d.map fun v => (v : ℚ)
             net_cash := n.map fun v => (v : ℚ)
             ex_div_date := e
             payout_date := e } := by
  cases c <;> cases d <;> cases n <;> cases e <;> rfl

lemma pyOr_of_truthy {a : Option ℚ} (b : Option ℚ) (h : truthy a = true) :
    pyOr a b = a := by
  simp [pyOr, h]

lemma derivePeFwdT_of_truthy {pf : Option ℚ} (pt ey : Option ℚ)
    (h : truthy pf = true) : derivePeFwdT pf pt ey = pf := by
  cases pf with
  | none => simp [truthy] at h
  | some q => cases pt <;> cases ey <;> rfl

lemma computeEvT_of_truthy {d : Option ℚ} (n m : Option ℚ)
    (h : truthy d = true) : computeEvT d n m = d := by
  simp [computeEvT, h]

/-- The empty Finnhub mapping (adapter A soft failure). -/
def emptyFinnhub : Finnhub :=
  { marketCapitalization := none, peTTM := none, epsGrowthQuarterlyYoy := none
    revenueGrowthQuarterlyYoy := none, forwardPE := none, psTTM := none
    enterpriseValue := none, ebitdaTTM := none, pbTTM := none
    currentEvFreeCashFlowTTM := none, netProfitMarginTTM := none
    operatingMarginTTM := none, dividendYieldIndicatedAnnual := none
    payoutRatioTTM := none }

/-- The empty FMP key-metrics mapping (adapter C soft failure). -/
def emptyFmpKm : FmpKm :=
  { marketCapTTM := none, peRatioTTM := none, epsGrowthQuarterlyYoy := none
    revenueGrowthQuarterlyYOY := none, forwardPE := none
    priceToSalesRatioTTM := none, enterpriseValueOverEBITDATTM := none
    enterpriseValueTTM := none, ebitdaTTM := none, priceToBookRatioTTM := none
    pbRatioTTM := none, ptbRatioTTM := none, freeCashFlowYieldTTM := none
    netProfitMarginTTM := none, operatingMarginTTM := none
    dividendYieldTTM := none, payoutRatioTTM := none }

/-- The empty FMP balance-sheet mapping (adapter C soft failure). -/
def emptyFmpBs : FmpBs :=
  { cashAndCashEquivalents := none, totalDebt := none }

/-- The all-null adapter B result (soft failure). -/
def emptyYFin : YFin :=
  { cash := none, debt := none, net_cash := none
    ex_div_date := none, payout_date := none }

/-- The snapshot whose every field is null. -/
def emptySnapshot : Snapshot :=
  { market_cap := none, pe_ttm := none, pe_fwd := none, price_to_sales := none
    ev_to_ebitda := none, price_to_book := none, fcf_yield := none
    profit_margin := none, operating_margin_ttm := none, earnings_yoy := none
    revenue_yoy := none, cash := none, debt := none, net_cash := none
    dividend_yield := none, payout_ratio' := none, ex_div_date := none
    payout_date := none }

/-- C7: when all three provider adapters return empty (all-null)
mappings, the reconciler succeeds — no error — and returns a
CanonicalSnapshot in which every field is null. -/
theorem all_empty_gives_all_null_snapshot :
    fetch_snapshot emptyFinnhub emptyYFin emptyFmpKm emptyFmpBs =
      Except.ok emptySnapshot := rfl

/-- C8: for all well-typed (possibly all-null) adapter outputs, the
reconciler's merge logic raises no exception — every division is
guarded — and it returns a fully formed snapshot. -/
theorem reconciler_never_raises (f : Finnhub) (y : YFin) (km : FmpKm)
    (bs : FmpBs) : ∃ s : Snapshot, fetch_snapshot f y km bs = Except.ok s :=
  ⟨_, fetch_snapshot_eq f y km bs⟩

/-- C2: evaluation of the code at the claim's own example. With
pe_ttm = 20, earnings_yoy = -25 and no directly supplied forward P/E,
`fetch_snapshot` leaves pe_fwd null — the negative-growth derivation the
claim (and the spec) describe is absent from the code, which derives
only when earnings_yoy > 0. -/
theorem negative_growth_derivation_missing :
    (fetch_snapshot
        { emptyFinnhub with peTTM := some 20,
                            epsGrowthQuarterlyYoy := some (-25) }
        emptyYFin emptyFmpKm emptyFmpBs).map Snapshot.pe_fwd =
      Except.ok none := rfl

/-- C1, counterexample: the primary source supplies the non-null value
0 for pe_ttm while the secondary supplies 5; the reconciler returns 5,
not the primary's 0, because the fallback tests Python truthiness
rather than nullness. -/
theorem primary_zero_not_used_counterexample :
    (fetch_snapshot { emptyFinnhub with peTTM := some 0 } emptyYFin
          { emptyFmpKm with peRatioTTM := some 5 } emptyFmpBs).map
        Snapshot.pe_ttm =
      Except.ok (some 5) ∧ (some (5 : ℚ) ≠ some (0 : ℚ)) :=
  ⟨rfl, by decide⟩

/-- C3, counterexample: with no direct enterpriseValueOverEBITDATTM,
A.enterpriseValue = 100 and C.ebitdaTTM = 0 (so the resolved divisor is
0), the reconciler stores ev_to_ebitda = 0 — a value, not null. -/
theorem ev_zero_divisor_counterexample :
    (fetch_snapshot { emptyFinnhub with enterpriseValue := some 100 }
          emptyYFin { emptyFmpKm with ebitdaTTM := some 0 }
          emptyFmpBs).map Snapshot.ev_to_ebitda =
      Except.ok (some 0) ∧ some (0 : ℚ) ≠ (none : Option ℚ) :=
  ⟨rfl, by decide⟩

/-- C4, counterexample: Finnhub directly supplies forwardPE = 0 (a
non-null value); with pe_ttm = 20 and earnings_yoy = 25 the reconciler
nevertheless applies the derivation and returns 16, because a supplied
0 is falsy and the merged direct value becomes null. -/
theorem pe_fwd_zero_overwritten_counterexample :
    (fetch_snapshot
          { emptyFinnhub with forwardPE := some 0, peTTM := some 20,
                              epsGrowthQuarterlyYoy := some 25 }
          emptyYFin emptyFmpKm emptyFmpBs).map Snapshot.pe_fwd =
      Except.ok (some 16) ∧ some (16 : ℚ) ≠ some (0 : ℚ) := by
  refine ⟨?_, by decide⟩
  rw [fetch_snapshot_eq]
  norm_num [Except.map, derivePeFwdT, pyOr, truthy, emptyFinnhub, emptyFmpKm]

/-- C1 (amended): for every output field with a fallback chain, if the
primary source supplies a truthy value (non-null and nonzero), that
value is used verbatim regardless of the secondary sources; for
net_cash alone any non-null primary value — including 0 — is used
verbatim.  A primary value of 0 or 0.0 in the other chains is treated
as missing (see the counterexample). -/
theorem primary_truthy_value_used_verbatim (f : Finnhub) (y : YFin)
    (km : FmpKm) (bs : FmpBs) :
    (truthy f.marketCapitalization = true →
      (fetch_snapshot f y km bs).map Snapshot.market_cap =
        Except.ok f.marketCapitalization) ∧
    (truthy f.peTTM = true →
      (fetch_snapshot f y km bs).map Snapshot.pe_ttm = Except.ok f.peTTM) ∧
    (truthy f.forwardPE = true →
      (fetch_snapshot f y km bs).map Snapshot.pe_fwd = Except.ok f.forwardPE) ∧
    (truthy f.psTTM = true →
      (fetch_snapshot f y km bs).map Snapshot.price_to_sales =
        Except.ok f.psTTM) ∧
    (truthy km.enterpriseValueOverEBITDATTM = true →
      (fetch_snapshot f y km bs).map Snapshot.ev_to_ebitda =
        Except.ok km.enterpriseValueOverEBITDATTM) ∧
    (truthy f.pbTTM = true →
      (fetch_snapshot f y km bs).map Snapshot.price_to_book =
        Except.ok f.pbTTM) ∧
    (truthy f.currentEvFreeCashFlowTTM = true →
      (fetch_snapshot f y km bs).map Snapshot.fcf_yield =
        Except.ok f.currentEvFreeCashFlowTTM) ∧
    (truthy f.netProfitMarginTTM = true →
      (fetch_snapshot f y km bs).map Snapshot.profit_margin =
        Except.ok f.netProfitMarginTTM) ∧
    (truthy f.operatingMarginTTM = true →
      (fetch_snapshot f y km bs).map Snapshot.operating_margin_ttm =
        Except.ok f.operatingMarginTTM) ∧
    (truthy f.epsGrowthQuarterlyYoy = true →
      (fetch_snapshot f y km bs).map Snapshot.earnings_yoy =
        Except.ok f.epsGrowthQuarterlyYoy) ∧
    (truthy f.revenueGrowthQuarterlyYoy = true →
      (fetch_snapshot f y km bs).map Snapshot.revenue_yoy =
        Except.ok f.revenueGrowthQuarterlyYoy) ∧
    (truthy y.cash = true →
      (fetch_snapshot f y km bs).map Snapshot.cash = Except.ok y.cash) ∧
    (truthy y.debt = true →
      (fetch_snapshot f y km bs).map Snapshot.debt = Except.ok y.debt) ∧
    (y.net_cash.isSome = true →
      (fetch_snapshot f y km bs).map Snapshot.net_cash =
        Except.ok y.net_cash) ∧
    (truthy f.dividendYieldIndicatedAnnual = true →
      (fetch_snapshot f y km bs).map Snapshot.dividend_yield =
        Except.ok f.dividendYieldIndicatedAnnual) ∧
    (truthy f.payoutRatioTTM = true →
      (fetch_snapshot f y km bs).map Snapshot.payout_ratio' =
        Except.ok f.payoutRatioTTM) := by
  have he := fetch_snapshot_eq f y km bs
  refine ⟨fun h => ?_, fun h => ?_, fun h => ?_, fun h => ?_, fun h => ?_,
    fun h => ?_, fun h => ?_, fun h => ?_, fun h => ?_, fun h => ?_,
    fun h => ?_, fun h => ?_, fun h => ?_, fun h => ?_, fun h => ?_,
    fun h => ?_⟩ <;> rw [he] <;> simp only [Except.map]
  · rw [pyOr_of_truthy _ h]
  · rw [pyOr_of_truthy _ h]
  · rw [pyOr_of_truthy _ h, derivePeFwdT_of_truthy _ _ h]
  · rw [pyOr_of_truthy _ h]
  · rw [computeEvT_of_truthy _ _ h]
  · rw [pyOr_of_truthy _ h]
  · rw [pyOr_of_truthy _ h]
  · rw [pyOr_of_truthy _ h]
  · rw [pyOr_of_truthy _ h]
  · rw [pyOr_of_truthy _ h]
  · rw [pyOr_of_truthy _ h]
  · rw [pyOr_of_truthy _ h]
  · rw [pyOr_of_truthy _ h]
  · obtain ⟨v, hv⟩ := Option.isSome_iff_exists.mp h
    rw [hv]
  · rw [pyOr_of_truthy _ h]
  · rw [pyOr_of_truthy _ h]

/-- Finnhub mapping with every field truthy, for witnesses. -/
def fullFinnhub : Finnhub :=
  { marketCapitalization := some 1000, peTTM := some 21
    epsGrowthQuarterlyYoy := some 12, revenueGrowthQuarterlyYoy := some 8
    forwardPE := some 19, psTTM := some 6, enterpriseValue := some 1200
    ebitdaTTM := some 90, pbTTM := some 3, currentEvFreeCashFlowTTM := some 25
    netProfitMarginTTM := some 22, operatingMarginTTM := some 28
    dividendYieldIndicatedAnnual := some 2, payoutRatioTTM := some 40 }

/-- FMP key-metrics mapping with a truthy direct EV/EBITDA, for
witnesses. -/
def directEvFmpKm : FmpKm :=
  { emptyFmpKm with enterpriseValueOverEBITDATTM := some 13 }

/-- Adapter B output with truthy cash and debt and a non-null net cash,
for witnesses. -/
def fullYFin : YFin :=
  { cash := some 30, debt := some 11, net_cash := some 19
    ex_div_date := some 3, payout_date := some 3 }

/-- C1 (amended), witness: each fallback conjunct applied at a concrete
input whose primary values are all truthy. -/
theorem primary_truthy_value_used_verbatim_witness :
    ((fetch_snapshot fullFinnhub fullYFin directEvFmpKm emptyFmpBs).map
        Snapshot.market_cap = Except.ok fullFinnhub.marketCapitalization) ∧
    ((fetch_snapshot fullFinnhub fullYFin directEvFmpKm emptyFmpBs).map
        Snapshot.pe_ttm = Except.ok fullFinnhub.peTTM) ∧
    ((fetch_snapshot fullFinnhub fullYFin directEvFmpKm emptyFmpBs).map
        Snapshot.pe_fwd = Except.ok fullFinnhub.forwardPE) ∧
    ((fetch_snapshot fullFinnhub fullYFin directEvFmpKm emptyFmpBs).map
        Snapshot.price_to_sales = Except.ok fullFinnhub.psTTM) ∧
    ((fetch_snapshot fullFinnhub fullYFin directEvFmpKm emptyFmpBs).map
        Snapshot.ev_to_ebitda =
        Except.ok directEvFmpKm.enterpriseValueOverEBITDATTM) ∧
    ((fetch_snapshot fullFinnhub fullYFin directEvFmpKm emptyFmpBs).map
        Snapshot.cash = Except.ok fullYFin.cash) ∧
    ((fetch_snapshot fullFinnhub fullYFin directEvFmpKm emptyFmpBs).map
        Snapshot.debt = Except.ok fullYFin.debt) ∧
    ((fetch_snapshot fullFinnhub fullYFin directEvFmpKm emptyFmpBs).map
        Snapshot.net_cash = Except.ok fullYFin.net_cash) ∧
    ((fetch_snapshot fullFinnhub fullYFin directEvFmpKm emptyFmpBs).map
        Snapshot.payout_ratio' = Except.ok fullFinnhub.payoutRatioTTM) := by
  have H := primary_truthy_value_used_verbatim fullFinnhub fullYFin
    directEvFmpKm emptyFmpBs
  exact ⟨H.1 (by decide), H.2.1 (by decide), H.2.2.1 (by decide),
    H.2.2.2.1 (by decide), H.2.2.2.2.1 (by decide),
    H.2.2.2.2.2.2.2.2.2.2.2.1 (by decide),
    H.2.2.2.2.2.2.2.2.2.2.2.2.1 (by decide),
    H.2.2.2.2.2.2.2.2.2.2.2.2.2.1 (by decide),
    H.2.2.2.2.2.2.2.2.2.2.2.2.2.2.2 (by decide)⟩

/-- C3 (amended): with no direct enterpriseValueOverEBITDATTM, a truthy
resolved numerator and a falsy resolved divisor (null, or 0 as in the
claim's hypothesis), the reconciler stores the falsy divisor itself as
ev_to_ebitda — 0 when the divisor resolves to C's 0, null when it
resolves to null — never an exception and never infinity. -/
theorem ev_falsy_divisor_is_stored (f : Finnhub) (y : YFin) (km : FmpKm)
    (bs : FmpBs) (hdirect : km.enterpriseValueOverEBITDATTM = none)
    (hnum : truthy (pyOr f.enterpriseValue km.enterpriseValueTTM) = true)
    (hden : truthy (pyOr f.ebitdaTTM km.ebitdaTTM) = false) :
    (fetch_snapshot f y km bs).map Snapshot.ev_to_ebitda =
      Except.ok (pyOr f.ebitdaTTM km.ebitdaTTM) := by
  rw [fetch_snapshot_eq]
  simp only [Except.map]
  rw [hdirect]
  show Except.ok (computeEvT none _ _) = _
  unfold computeEvT
  rw [hnum, hden]
  simp [truthy]

/-- C3 (amended), witness: Finnhub supplies enterpriseValue = 100 and
ebitdaTTM = 0, FMP supplies neither; the divisor resolves to null and
ev_to_ebitda is null. -/
theorem ev_falsy_divisor_is_stored_witness :
    (fetch_snapshot
        { emptyFinnhub with enterpriseValue := some 100,
                            ebitdaTTM := some 0 }
        emptyYFin emptyFmpKm emptyFmpBs).map Snapshot.ev_to_ebitda =
      Except.ok (none : Option ℚ) :=
  ev_falsy_divisor_is_stored
    { emptyFinnhub with enterpriseValue := some 100, ebitdaTTM := some 0 }
    emptyYFin emptyFmpKm emptyFmpBs rfl (by decide) (by decide)

lemma derivePeFwdT_some (q : ℚ) (pt ey : Option ℚ) :
    derivePeFwdT (some q) pt ey = some q := by
  cases pt <;> cases ey <;> rfl

/-- C4 (amended): whenever the Python-or merge of the directly supplied
forward P/E values (A.forwardPE or C.forwardPE) is non-null — A truthy,
or A falsy and C non-null, including a C-supplied 0 — the derivation is
not applied (the merged value fails the `is None` guard) and that
merged value appears unchanged in the snapshot.  Only an A-supplied 0
with C absent merges to null, and the derivation may then replace it
(see the counterexample). -/
theorem pe_fwd_direct_nonnull_used (f : Finnhub) (y : YFin) (km : FmpKm)
    (bs : FmpBs) (q : ℚ) (h : pyOr f.forwardPE km.forwardPE = some q) :
    (fetch_snapshot f y km bs).map Snapshot.pe_fwd = Except.ok (some q) := by
  rw [fetch_snapshot_eq]
  simp only [Except.map]
  rw [h, derivePeFwdT_some]

/-- C4 (amended), witness: FMP directly supplies forwardPE = 0 with
Finnhub's absent, while pe_ttm = 20 and earnings_yoy = 25 would allow a
derivation; the merged 0 is non-null, so the derivation is skipped and
0 is kept. -/
theorem pe_fwd_direct_nonnull_used_witness :
    (fetch_snapshot
        { emptyFinnhub with peTTM := some 20, epsGrowthQuarterlyYoy := some 25 }
        emptyYFin { emptyFmpKm with forwardPE := some 0 }
        emptyFmpBs).map Snapshot.pe_fwd = Except.ok (some 0) :=
  pe_fwd_direct_nonnull_used
    { emptyFinnhub with peTTM := some 20, epsGrowthQuarterlyYoy := some 25 }
    emptyYFin { emptyFmpKm with forwardPE := some 0 } emptyFmpBs 0 (by decide)

/-- C5: net_cash equals cash − debt whenever the merged cash and debt
are both known and adapter B supplied no net_cash; and whenever adapter
B supplies net_cash, that value is used unchanged, even if it differs
from cash − debt over the merged values. -/
theorem net_cash_reconciliation (f : Finnhub) (y : YFin) (km : FmpKm)
    (bs : FmpBs) :
    (∀ c d : ℚ, y.net_cash = none →
      pyOr y.cash bs.cashAndCashEquivalents = some c →
      pyOr y.debt bs.totalDebt = some d →
      (fetch_snapshot f y km bs).map Snapshot.net_cash =
        Except.ok (some (c - d))) ∧
    (∀ v : ℚ, y.net_cash = some v →
      (fetch_snapshot f y km bs).map Snapshot.net_cash =
        Except.ok (some v)) := by
  rw [fetch_snapshot_eq]
  constructor
  · intro c d h hc hd
    simp only [Except.map]
    rw [h, hc, hd]
  · intro v h
    simp only [Except.map]
    rw [h]

/-- C5, witness: with B.cash = 10, B.debt = 4 and no B net_cash, the
snapshot's net_cash is 6; with B.net_cash = 99 supplied (and the merged
cash 30 and debt 11 implying 19), the snapshot's net_cash is 99
unchanged. -/
theorem net_cash_reconciliation_witness :
    ((fetch_snapshot emptyFinnhub
        { emptyYFin with cash := some 10, debt := some 4 } emptyFmpKm
        emptyFmpBs).map Snapshot.net_cash = Except.ok (some 6)) ∧
    ((fetch_snapshot emptyFinnhub
        { fullYFin with net_cash := some 99 } emptyFmpKm
        emptyFmpBs).map Snapshot.net_cash = Except.ok (some 99)) := by
  constructor
  · have h := (net_cash_reconciliation emptyFinnhub
      { emptyYFin with cash := some 10, debt := some 4 } emptyFmpKm
      emptyFmpBs).1 10 4 rfl (by decide) (by decide)
    rw [h]
    norm_num
  · exact (net_cash_reconciliation emptyFinnhub
      { fullYFin with net_cash := some 99 } emptyFmpKm emptyFmpBs).2 99 rfl

/-- C6: when no provider supplies pe_fwd directly and the merged pe_ttm
and earnings_yoy are both known, positive growth derives
pe_fwd = pe_ttm / (1 + earnings_yoy / 100), and zero growth leaves
pe_fwd null. -/
theorem pe_fwd_positive_growth_derivation (f : Finnhub) (y : YFin)
    (km : FmpKm) (bs : FmpBs) (hA : f.forwardPE = none)
    (hC : km.forwardPE = none) :
    ∀ p e : ℚ, pyOr f.peTTM km.peRatioTTM = some p →
      pyOr f.epsGrowthQuarterlyYoy km.epsGrowthQuarterlyYoy = some e →
      ((0 < e → (fetch_snapshot f y km bs).map Snapshot.pe_fwd =
          Except.ok (some (p / (1 + e / 100)))) ∧
       (e = 0 → (fetch_snapshot f y km bs).map Snapshot.pe_fwd =
          Except.ok none)) := by
  intro p e hp he
  rw [fetch_snapshot_eq]
  simp only [Except.map]
  have hpf : pyOr f.forwardPE km.forwardPE = none := by
    rw [hA, hC]
    rfl
  rw [hpf, hp, he]
  constructor
  · intro hpos
    simp [derivePeFwdT, hpos]
  · intro h0
    subst h0
    simp [derivePeFwdT]

/-- C6, witness: pe_ttm = 20 and earnings_yoy = 25 with no direct
forward P/E give pe_fwd = 20 / 1.25 = 16. -/
theorem pe_fwd_positive_growth_derivation_witness :
    (fetch_snapshot
        { emptyFinnhub with peTTM := some 20, epsGrowthQuarterlyYoy := some 25 }
        emptyYFin emptyFmpKm emptyFmpBs).map Snapshot.pe_fwd =
      Except.ok (some 16) := by
  have h := ((pe_fwd_positive_growth_derivation
    { emptyFinnhub with peTTM := some 20, epsGrowthQuarterlyYoy := some 25 }
    emptyYFin emptyFmpKm emptyFmpBs rfl rfl) 20 25 (by decide)
    (by decide)).1 (by norm_num)
  rw [h]
  norm_num

/-- C9: in every snapshot the reconciler builds from an actual adapter
B result, ex_div_date and payout_date coincide — adapter B copies its
most recent dividend date into both keys on every execution path, and
the reconciler takes both fields from adapter B with no fallback. -/
theorem ex_div_equals_payout (inp : BInput) (f : Finnhub) (km : FmpKm)
    (bs : FmpBs) (y : YFin)
    (h : YFin.ofDict? (yfinance_balance_dividend inp) = some y) :
    (fetch_snapshot f y km bs).map Snapshot.ex_div_date =
      (fetch_snapshot f y km bs).map Snapshot.payout_date := by
  obtain ⟨c, d, n, e, hs⟩ := yfbd_shape inp
  rw [hs, ofDict_bShape] at h
  have hy : y.ex_div_date = y.payout_date := by
    cases Option.some.inj h
    rfl
  rw [fetch_snapshot_eq]
  simp only [Except.map]
  rw [hy]

/-- Adapter B environment for the C9 witness: the balance sheet holds
one cash row and the dividend series ends at date 7. -/
def bInputW : BInput :=
  { bsTable := some [("Cash And Cash Equivalents", some 50)]
    divsLast := some (some (DivLast.dateVal 7)) }

/-- C9, witness: the concrete adapter B run `bInputW` yields cash 50
and date 7 in both date slots, and the resulting snapshot's two date
fields agree. -/
theorem ex_div_equals_payout_witness :
    (fetch_snapshot emptyFinnhub
        { cash := some 50, debt := none, net_cash := none,
          ex_div_date := some 7, payout_date := some 7 } emptyFmpKm
        emptyFmpBs).map Snapshot.ex_div_date =
      (fetch_snapshot emptyFinnhub
        { cash := some 50, debt := none, net_cash := none,
          ex_div_date := some 7, payout_date := some 7 } emptyFmpKm
        emptyFmpBs).map Snapshot.payout_date :=
  ex_div_equals_payout bInputW emptyFinnhub emptyFmpKm emptyFmpBs
    { cash := some 50, debt := none, net_cash := none,
      ex_div_date := some 7, payout_date := some 7 } rfl

/-- C10: on every input and every failure path, adapter B returns a
dictionary whose keys are exactly cash, debt, net_cash, ex_div_date,
payout_date (each possibly null), and the reconciler's five bracket
lookups on it are all well-typed and cannot fail. -/
theorem yfin_result_has_exactly_five_keys (inp : BInput) :
    (yfinance_balance_dividend inp).map Prod.fst =
      ["cash", "debt", "net_cash", "ex_div_date", "payout_date"] ∧
    (YFin.ofDict? (yfinance_balance_dividend inp)).isSome = true := by
  obtain ⟨c, d, n, e, hs⟩ := yfbd_shape inp
  rw [hs, ofDict_bShape]
  exact ⟨rfl, rfl⟩
